import Mathlib

/-!
Shallow embedding of the yanduoduo-server user controller
(app/controller/user.js).  Each controller action is translated branch by
branch into a total Lean function over an environment structure whose
fields stand for the external collaborators (validator, ORM model,
user service, helper).  String-or-undefined request fields are modelled
as `Option String`, with JS truthiness made explicit.  Besides the
response, each action returns an effect record so that statements such
as "no token is issued" or "the user store is not queried" are about the
function itself.
-/

/-- JS truthiness of a string-or-undefined value: `undefined` and the
empty string are falsy, every other string is truthy. -/
def truthy : Option String → Bool
  | none => false
  | some s => s != ""

/-- The error kinds named by `CustomError.TYPES` as used in the
controller, plus a generic kind for a raw error passed to `fail`. -/
inductive ErrType where
  | invalidParam
  | phoneCodeErrorCode
  | registerRegistered
  | loginUnRegistered
  | loginPasswordError
  | tokenError
  | tokenExpired
  | uploadError
  | genericFailure
  deriving DecidableEq, Repr

/-- A user record of the ORM model, with the fields the controller
touches. -/
structure User where
  id : Nat
  phone : String
  password : String
  pwd_key : String
  nickname : String
  avatar : Option String
  token : Option String
  token_expires_in : Nat
  deriving DecidableEq, Repr

/-! ## login -/

/-- Body of a login request: `const { phone, code, password } = ctx.request.body`. -/
structure LoginBody where
  phone : Option String
  code : Option String
  password : Option String
  deriving DecidableEq, Repr

/-- External collaborators of `UserController.login`. -/
structure LoginEnv where
  validateLoginForm : LoginBody → Except String Unit
  findByPhone : Option String → Option User
  checkPassword : User → Option String → Bool
  checkPhoneCode : Option String → Option String → Bool
  generateToken : Nat → String

inductive LoginResp where
  | ok (token : String)
  | err (e : ErrType)
  deriving DecidableEq, Repr

/-- Which credential checks ran and for which user id a token was
generated during `login`. -/
structure LoginEffects where
  checkedPassword : Bool
  checkedCode : Bool
  tokenIssuedFor : Option Nat
  deriving DecidableEq, Repr

/-- `UserController.login`: validate the form (catching a validator error
as `invalidParam`), look the phone up, then check the password if one is
truthy, else the phone code if one is truthy, else nothing; on every
failure return without a token, otherwise generate a token for the user
id and return it with success. -/
def login (env : LoginEnv) (body : LoginBody) : LoginResp × LoginEffects :=
  match env.validateLoginForm body with
  | .error _ => (.err .invalidParam, ⟨false, false, none⟩)
  | .ok _ =>
    match env.findByPhone body.phone with
    | none => (.err .loginUnRegistered, ⟨false, false, none⟩)
    | some user =>
      if truthy body.password then
        if env.checkPassword user body.password then
          (.ok (env.generateToken user.id), ⟨true, false, some user.id⟩)
        else
          (.err .loginPasswordError, ⟨true, false, none⟩)
      else if truthy body.code then
        if env.checkPhoneCode body.phone body.code then
          (.ok (env.generateToken user.id), ⟨false, true, some user.id⟩)
        else
          (.err .phoneCodeErrorCode, ⟨false, true, none⟩)
      else
        (.ok (env.generateToken user.id), ⟨false, false, some user.id⟩)

/-! ## register -/

/-- Body of a register / reset-password request:
`const { phone, code, password, rePassword } = ctx.request.body`. -/
structure RegisterBody where
  phone : Option String
  code : Option String
  password : Option String
  rePassword : Option String
  deriving DecidableEq, Repr

/-- Projection of the record returned by `userService.createUser`. -/
structure NewUser where
  id : Nat
  nickname : String
  deriving DecidableEq, Repr

/-- External collaborators of `UserController.register`. -/
structure RegisterEnv where
  validateRegisterForm : RegisterBody → Except String Unit
  checkPhoneCode : Option String → Option String → Bool
  findByPhone : Option String → Option User
  createUser : Option String → Option String → NewUser

inductive RegisterResp where
  | ok (id : Nat) (nickname : String)
  | err (e : ErrType)
  deriving DecidableEq, Repr

/-- Which collaborators ran during `register`: was the phone code
checked, was the user store queried, and the id of a created user. -/
structure RegisterEffects where
  codeChecked : Bool
  lookedUp : Bool
  createdUserId : Option Nat
  deriving DecidableEq, Repr

/-- `UserController.register`: validate (catching a validator error as
`invalidParam`), reject mismatched passwords as `invalidParam`, check
the phone code, reject an already registered phone, otherwise create the
user and return its id and nickname. -/
def register (env : RegisterEnv) (body : RegisterBody) :
    RegisterResp × RegisterEffects :=
  match env.validateRegisterForm body with
  | .error _ => (.err .invalidParam, ⟨false, false, none⟩)
  | .ok _ =>
    if body.password ≠ body.rePassword then
      (.err .invalidParam, ⟨false, false, none⟩)
    else if env.checkPhoneCode body.phone body.code = false then
      (.err .phoneCodeErrorCode, ⟨true, false, none⟩)
    else
      match env.findByPhone body.phone with
      | some _ => (.err .registerRegistered, ⟨true, true, none⟩)
      | none =>
        let user := env.createUser body.phone body.password
        (.ok user.id user.nickname, ⟨true, true, some user.id⟩)

/-! ## resetPassword -/

/-- External collaborators of `UserController.resetPassword`.  The
`secretPassword` field stands for `helper.secretPassword(password)`,
returning the pair `[secret, signedPwd]`. -/
structure ResetEnv where
  validateRegisterForm : RegisterBody → Except String Unit
  findByPhone : Option String → Option User
  checkPhoneCode : Option String → Option String → Bool
  secretPassword : Option String → String × String

inductive ResetResp where
  | ok
  | err (e : ErrType)
  deriving DecidableEq, Repr

/-- `UserController.resetPassword`: validate (catching a validator error
as `invalidParam`), reject mismatched passwords, require an existing
user for the phone, require a correct phone code, then set `pwd_key` and
`password` from `helper.secretPassword` and save the record.  The second
component is the record passed to `user.save()`, `none` when nothing is
saved. -/
def resetPassword (env : ResetEnv) (body : RegisterBody) :
    ResetResp × Option User :=
  match env.validateRegisterForm body with
  | .error _ => (.err .invalidParam, none)
  | .ok _ =>
    if body.password ≠ body.rePassword then
      (.err .invalidParam, none)
    else
      match env.findByPhone body.phone with
      | none => (.err .loginUnRegistered, none)
      | some user =>
        if env.checkPhoneCode body.phone body.code = false then
          (.err .phoneCodeErrorCode, none)
        else
          let sp := env.secretPassword body.password
          (.ok, some { user with pwd_key := sp.1, password := sp.2 })

/-! ## refreshToken -/

/-- The query object of a refresh request; `ctx.query` itself may be
absent, hence the outer `Option` at the call site. -/
structure RefreshQuery where
  token : Option String
  deriving DecidableEq, Repr

/-- `ctx.query && ctx.query.token` as a string-or-undefined value. -/
def queryToken : Option RefreshQuery → Option String
  | none => none
  | some rq => rq.token

/-- External collaborators of `UserController.refreshToken`.
`findOneByToken` stands for `ctx.model.User.findOne({ where: { token } })`
and `isExpired` for `helper.isExpired`. -/
structure RefreshEnv where
  findOneByToken : Option String → Option User
  isExpired : Nat → Bool
  generateToken : Nat → String

inductive RefreshResp where
  | ok (token : String)
  | err (e : ErrType)
  deriving DecidableEq, Repr

/-- Whether the user store was queried and for which user id a token was
generated during `refreshToken`. -/
structure RefreshEffects where
  queriedStore : Bool
  tokenIssuedFor : Option Nat
  deriving DecidableEq, Repr

/-- `UserController.refreshToken`: a falsy `ctx.query.token` fails with
the token error before any lookup; an unknown token fails with the token
error; a known token past its expiry fails with `expired`; otherwise a
new token is generated for the owning user id and returned. -/
def refreshToken (env : RefreshEnv) (q : Option RefreshQuery) :
    RefreshResp × RefreshEffects :=
  let rt := queryToken q
  if truthy rt = false then
    (.err .tokenError, ⟨false, none⟩)
  else
    match env.findOneByToken rt with
    | none => (.err .tokenError, ⟨true, none⟩)
    | some user =>
      if env.isExpired user.token_expires_in then
        (.err .tokenExpired, ⟨true, none⟩)
      else
        (.ok (env.generateToken user.id), ⟨true, some user.id⟩)

/-! ## getPhoneCode -/

/-- The query object of a send-phone-code request. -/
structure PhoneQuery where
  phone : Option String
  deriving DecidableEq, Repr

/-- External collaborators of `UserController.getPhoneCode`; the SMS
service `sendPhoneCode` may throw, its error modelled as a string. -/
structure PhoneCodeEnv where
  validatePhone : PhoneQuery → Except String Unit
  sendPhoneCode : Option String → Except String Unit

inductive PhoneCodeResp where
  | ok
  | err (e : ErrType)
  deriving DecidableEq, Repr

/-- Modelled from the spec: `base_controller.fail` is not under `src/`;
per the spec, responses follow a uniform success/failure envelope and
uncaught errors from external services are logged and surfaced as a
generic failure.  A raw service error passed to `fail` therefore becomes
the generic failure kind. -/
def failFromRaw (_e : String) : ErrType := .genericFailure

/-- `UserController.getPhoneCode`: validate the phone in the query
(catching a validator error as `invalidParam`), then send the code; an
error thrown by the SMS service is caught, logged and turned into a
failure response. -/
def getPhoneCode (env : PhoneCodeEnv) (q : PhoneQuery) : PhoneCodeResp :=
  match env.validatePhone q with
  | .error _ => .err .invalidParam
  | .ok _ =>
    match env.sendPhoneCode q.phone with
    | .ok _ => .ok
    | .error e => .err (failFromRaw e)

/-! ## uploadAvatar -/

/-- Projection of the record returned by `userService.saveAvatar`. -/
structure SaveInfo where
  fileName : String
  deriving DecidableEq, Repr

/-- External collaborators of `UserController.uploadAvatar`:
`getFileStream` yields the upload stream (its bytes) or throws, and
`saveAvatar` persists the buffered bytes for the user or throws. -/
structure AvatarEnv where
  getFileStream : Except String (List Nat)
  saveAvatar : List Nat → Nat → Except String SaveInfo

inductive UploadResp where
  | ok (url : String)
  | err (e : ErrType)
  deriving DecidableEq, Repr

/-- What `uploadAvatar` did: the responses it emitted in order, whether
the stream was drained through `sendToWormhole`, and the value the
`avatar` field of the user record was updated to (`none` when
`User.update` was not called). -/
structure UploadOutcome where
  responses : List UploadResp
  streamDrained : Bool
  avatarUpdatedTo : Option String
  deriving DecidableEq, Repr

/-- `UserController.uploadAvatar`: a failing `getFileStream` returns an
upload error at once.  Otherwise the stream is buffered and handed to
`saveAvatar`; when that throws, the stream is drained and an upload
error is reported, but the function does not return: it falls through
with `fileName` still `undefined`, so the template literal yields
`/public/uploads/avatar/undefined`, `User.update` sets the avatar to it,
and a success response is emitted as well. -/
def uploadAvatar (env : AvatarEnv) (userId : Nat) : UploadOutcome :=
  match env.getFileStream with
  | .error _ =>
    { responses := [.err .uploadError], streamDrained := false,
      avatarUpdatedTo := none }
  | .ok bytes =>
    match env.saveAvatar bytes userId with
    | .ok info =>
      let avatarUrl := "/public/uploads/avatar/" ++ info.fileName
      { responses := [.ok avatarUrl], streamDrained := false,
        avatarUpdatedTo := some avatarUrl }
    | .error _ =>
      let avatarUrl := "/public/uploads/avatar/" ++ "undefined"
      { responses := [.err .uploadError, .ok avatarUrl],
        streamDrained := true, avatarUpdatedTo := some avatarUrl }

/-! ## Concrete environments for witnesses -/

/-- A registered user, phone 13800000000, holding token tok0 that
expires at time 5. -/
def cUser : User :=
  { id := 1, phone := "13800000000", password := "hashp1", pwd_key := "k0",
    nickname := "biu", avatar := none, token := some "tok0",
    token_expires_in := 5 }

/-- A second registered user holding the fresh token tok2. -/
def cUser2 : User :=
  { id := 2, phone := "13900000000", password := "hashp2", pwd_key := "k2",
    nickname := "duo", avatar := none, token := some "tok2",
    token_expires_in := 99 }

def cLoginEnv : LoginEnv :=
  { validateLoginForm := fun _ => .ok ()
    findByPhone := fun p => if p == some "13800000000" then some cUser else none
    checkPassword := fun u pw => u.password == "hashp1" && pw == some "p1"
    checkPhoneCode := fun p c => p == some "13800000000" && c == some "123456"
    generateToken := fun i => "tok" ++ toString i }

def cRegisterEnv : RegisterEnv :=
  { validateRegisterForm := fun _ => .ok ()
    checkPhoneCode := fun _ c => c == some "123456"
    findByPhone := fun p => if p == some "13800000000" then some cUser else none
    createUser := fun _ _ => { id := 7, nickname := "yan7" } }

def cResetEnv : ResetEnv :=
  { validateRegisterForm := fun _ => .ok ()
    findByPhone := fun p => if p == some "13800000000" then some cUser else none
    checkPhoneCode := fun _ c => c == some "123456"
    secretPassword := fun pw => ("salt1", "signed:" ++ pw.getD "") }

def cRefreshEnv : RefreshEnv :=
  { findOneByToken := fun t =>
      if t == some "tok0" then some cUser
      else if t == some "tok2" then some cUser2
      else none
    isExpired := fun n => decide (n < 10)
    generateToken := fun i => "tok" ++ toString i }

def cPhoneCodeEnv : PhoneCodeEnv :=
  { validatePhone := fun q => if truthy q.phone then .ok () else .error "invalid phone"
    sendPhoneCode := fun _ => .error "SMS service down" }

/-- Variants of the concrete environments whose validator rejects. -/
def cFailLoginEnv : LoginEnv :=
  { cLoginEnv with validateLoginForm := fun _ => .error "bad form" }

def cFailRegisterEnv : RegisterEnv :=
  { cRegisterEnv with validateRegisterForm := fun _ => .error "bad form" }

def cFailResetEnv : ResetEnv :=
  { cResetEnv with validateRegisterForm := fun _ => .error "bad form" }

def cFailPhoneCodeEnv : PhoneCodeEnv :=
  { cPhoneCodeEnv with validatePhone := fun _ => .error "bad form" }

/-- An avatar environment whose store rejects the save. -/
def cFailAvatarEnv : AvatarEnv :=
  { getFileStream := .ok [10, 20, 30]
    saveAvatar := fun _ _ => .error "disk full" }

/-! ## Claims -/

/-- Claim C1: for a login request that passes validation, names a
registered phone and supplies a (truthy) password, a verifying password
yields success with a token generated for the user id, and a
non-verifying password yields the passwordError failure with no token
generated. -/
theorem login_password_branch (env : LoginEnv) (body : LoginBody) (user : User)
    (hv : env.validateLoginForm body = .ok ())
    (hu : env.findByPhone body.phone = some user)
    (hp : truthy body.password = true) :
    (env.checkPassword user body.password = true →
      login env body =
        (.ok (env.generateToken user.id), ⟨true, false, some user.id⟩)) ∧
    (env.checkPassword user body.password = false →
      login env body = (.err .loginPasswordError, ⟨true, false, none⟩)) := by
  constructor <;> intro hc <;> simp [login, hv, hu, hp, hc]

theorem login_password_branch_witness :
    login cLoginEnv
        { phone := some "13800000000", code := none, password := some "p1" } =
      (.ok "tok1", ⟨true, false, some 1⟩) ∧
    login cLoginEnv
        { phone := some "13800000000", code := none, password := some "pX" } =
      (.err .loginPasswordError, ⟨true, false, none⟩) :=
  ⟨(login_password_branch cLoginEnv
      { phone := some "13800000000", code := none, password := some "p1" }
      cUser rfl (by decide) (by decide)).1 (by decide),
   (login_password_branch cLoginEnv
      { phone := some "13800000000", code := none, password := some "pX" }
      cUser rfl (by decide) (by decide)).2 (by decide)⟩

/-- Claim C9: for a login request that passes validation and names a
registered phone, when both the password and the code are falsy, neither
credential check runs and a token is still generated for the user id and
returned with success. -/
theorem login_no_credentials (env : LoginEnv) (body : LoginBody) (user : User)
    (hv : env.validateLoginForm body = .ok ())
    (hu : env.findByPhone body.phone = some user)
    (hp : truthy body.password = false)
    (hc : truthy body.code = false) :
    login env body =
      (.ok (env.generateToken user.id), ⟨false, false, some user.id⟩) := by
  simp [login, hv, hu, hp, hc]

theorem login_no_credentials_witness :
    login cLoginEnv { phone := some "13800000000", code := none, password := none } =
      (.ok "tok1", ⟨false, false, some 1⟩) :=
  login_no_credentials cLoginEnv
    { phone := some "13800000000", code := none, password := none }
    cUser rfl (by decide) (by decide) (by decide)

/-- Claim C2: for a token-refresh request that supplies a (nonempty)
token, an unknown token yields the token error, a known but expired
token yields the expired error, both without generating a token, and
only a known non-expired token yields a freshly generated token for the
owning user id. -/
theorem refreshToken_lookup_branches (env : RefreshEnv) (q : Option RefreshQuery)
    (t : String) (ht : queryToken q = some t) (hne : t ≠ "") :
    (env.findOneByToken (some t) = none →
      refreshToken env q = (.err .tokenError, ⟨true, none⟩)) ∧
    (∀ user, env.findOneByToken (some t) = some user →
      env.isExpired user.token_expires_in = true →
      refreshToken env q = (.err .tokenExpired, ⟨true, none⟩)) ∧
    (∀ user, env.findOneByToken (some t) = some user →
      env.isExpired user.token_expires_in = false →
      refreshToken env q =
        (.ok (env.generateToken user.id), ⟨true, some user.id⟩)) := by
  refine ⟨fun hn => ?_, fun user hu he => ?_, fun user hu he => ?_⟩ <;>
    simp_all [refreshToken, truthy, queryToken]

theorem refreshToken_lookup_branches_witness :
    refreshToken cRefreshEnv (some { token := some "nope" }) =
      (.err .tokenError, ⟨true, none⟩) ∧
    refreshToken cRefreshEnv (some { token := some "tok0" }) =
      (.err .tokenExpired, ⟨true, none⟩) ∧
    refreshToken cRefreshEnv (some { token := some "tok2" }) =
      (.ok "tok2", ⟨true, some 2⟩) :=
  ⟨(refreshToken_lookup_branches cRefreshEnv (some { token := some "nope" })
      "nope" rfl (by decide)).1 (by decide),
   (refreshToken_lookup_branches cRefreshEnv (some { token := some "tok0" })
      "tok0" rfl (by decide)).2.1 cUser (by decide) (by decide),
   (refreshToken_lookup_branches cRefreshEnv (some { token := some "tok2" })
      "tok2" rfl (by decide)).2.2 cUser2 (by decide) (by decide)⟩

/-- Claim C10: a token-refresh request whose query lacks a token (or
whose token is the empty string) fails with the token error at once,
without querying the user store and without generating a token. -/
theorem refreshToken_missing_token (env : RefreshEnv) (q : Option RefreshQuery)
    (h : truthy (queryToken q) = false) :
    refreshToken env q = (.err .tokenError, ⟨false, none⟩) := by
  simp [refreshToken, h]

theorem refreshToken_missing_token_witness :
    refreshToken cRefreshEnv none = (.err .tokenError, ⟨false, none⟩) ∧
    refreshToken cRefreshEnv (some { token := some "" }) =
      (.err .tokenError, ⟨false, none⟩) :=
  ⟨refreshToken_missing_token cRefreshEnv none (by decide),
   refreshToken_missing_token cRefreshEnv (some { token := some "" }) (by decide)⟩

/-- Claim C4: for a registration request that passes validation with
matching passwords and a correct phone code, an existing user for the
phone yields the registered failure with no user created, and only when
no user exists is a user created and its id and nickname returned. -/
theorem register_phone_lookup_branches (env : RegisterEnv) (body : RegisterBody)
    (hv : env.validateRegisterForm body = .ok ())
    (hpw : body.password = body.rePassword)
    (hc : env.checkPhoneCode body.phone body.code = true) :
    (∀ u, env.findByPhone body.phone = some u →
      register env body = (.err .registerRegistered, ⟨true, true, none⟩)) ∧
    (env.findByPhone body.phone = none →
      register env body =
        (.ok (env.createUser body.phone body.password).id
             (env.createUser body.phone body.password).nickname,
         ⟨true, true, some (env.createUser body.phone body.password).id⟩)) := by
  constructor
  · intro u hu; simp [register, hv, hpw, hc, hu]
  · intro hn; simp [register, hv, hpw, hc, hn]

theorem register_phone_lookup_branches_witness :
    register cRegisterEnv
        { phone := some "13800000000", code := some "123456",
          password := some "p9", rePassword := some "p9" } =
      (.err .registerRegistered, ⟨true, true, none⟩) ∧
    register cRegisterEnv
        { phone := some "13700000000", code := some "123456",
          password := some "p9", rePassword := some "p9" } =
      (.ok 7 "yan7", ⟨true, true, some 7⟩) :=
  ⟨(register_phone_lookup_branches cRegisterEnv
      { phone := some "13800000000", code := some "123456",
        password := some "p9", rePassword := some "p9" }
      rfl (by decide) (by decide)).1 cUser (by decide),
   (register_phone_lookup_branches cRegisterEnv
      { phone := some "13700000000", code := some "123456",
        password := some "p9", rePassword := some "p9" }
      rfl (by decide) (by decide)).2 (by decide)⟩

/-- Claim C5: a registration request whose password and rePassword
differ yields the invalidParam failure, whether or not validation
succeeds, with no phone-code check, no user lookup and no user
creation. -/
theorem register_password_mismatch (env : RegisterEnv) (body : RegisterBody)
    (h : body.password ≠ body.rePassword) :
    register env body = (.err .invalidParam, ⟨false, false, none⟩) := by
  unfold register
  cases hv : env.validateRegisterForm body with
  | error e => rfl
  | ok u => simp [h]

theorem register_password_mismatch_witness :
    register cRegisterEnv
        { phone := some "13700000000", code := some "123456",
          password := some "p9", rePassword := some "q9" } =
      (.err .invalidParam, ⟨false, false, none⟩) :=
  register_password_mismatch cRegisterEnv
    { phone := some "13700000000", code := some "123456",
      password := some "p9", rePassword := some "q9" } (by decide)

/-- Claim C6: for a password-reset request that passes validation with
matching passwords, a phone with no user yields the unRegistered
failure, an incorrect phone code yields the phone-code failure, both
saving nothing, and otherwise the record saved carries the secret key
and signed hash derived from the new password and the response is
success. -/
theorem resetPassword_branches (env : ResetEnv) (body : RegisterBody)
    (hv : env.validateRegisterForm body = .ok ())
    (hpw : body.password = body.rePassword) :
    (env.findByPhone body.phone = none →
      resetPassword env body = (.err .loginUnRegistered, none)) ∧
    (∀ user, env.findByPhone body.phone = some user →
      env.checkPhoneCode body.phone body.code = false →
      resetPassword env body = (.err .phoneCodeErrorCode, none)) ∧
    (∀ user, env.findByPhone body.phone = some user →
      env.checkPhoneCode body.phone body.code = true →
      resetPassword env body =
        (.ok, some { user with
          pwd_key := (env.secretPassword body.password).1,
          password := (env.secretPassword body.password).2 })) := by
  refine ⟨fun hn => ?_, fun user hu hc => ?_, fun user hu hc => ?_⟩
  · simp [resetPassword, hv, hpw, hn]
  · simp [resetPassword, hv, hpw, hu, hc]
  · simp [resetPassword, hv, hpw, hu, hc]

theorem resetPassword_branches_witness :
    resetPassword cResetEnv
        { phone := some "13700000000", code := some "123456",
          password := some "p2", rePassword := some "p2" } =
      (.err .loginUnRegistered, none) ∧
    resetPassword cResetEnv
        { phone := some "13800000000", code := some "999999",
          password := some "p2", rePassword := some "p2" } =
      (.err .phoneCodeErrorCode, none) ∧
    resetPassword cResetEnv
        { phone := some "13800000000", code := some "123456",
          password := some "p2", rePassword := some "p2" } =
      (.ok, some { cUser with pwd_key := "salt1", password := "signed:p2" }) :=
  ⟨(resetPassword_branches cResetEnv
      { phone := some "13700000000", code := some "123456",
        password := some "p2", rePassword := some "p2" }
      rfl (by decide)).1 (by decide),
   (resetPassword_branches cResetEnv
      { phone := some "13800000000", code := some "999999",
        password := some "p2", rePassword := some "p2" }
      rfl (by decide)).2.1 cUser (by decide) (by decide),
   (resetPassword_branches cResetEnv
      { phone := some "13800000000", code := some "123456",
        password := some "p2", rePassword := some "p2" }
      rfl (by decide)).2.2 cUser (by decide) (by decide)⟩

/-- Claim C7: in each of the four validating operations (send phone
code, register, login, reset password) a validator error is caught
locally and answered with the invalidParam failure; being total
functions into response types, none of them propagates the raw
validator error. -/
theorem validator_error_yields_invalidParam
    (penv : PhoneCodeEnv) (pq : PhoneQuery) (e1 : String)
    (renv : RegisterEnv) (rbody : RegisterBody) (e2 : String)
    (lenv : LoginEnv) (lbody : LoginBody) (e3 : String)
    (senv : ResetEnv) (sbody : RegisterBody) (e4 : String)
    (h1 : penv.validatePhone pq = .error e1)
    (h2 : renv.validateRegisterForm rbody = .error e2)
    (h3 : lenv.validateLoginForm lbody = .error e3)
    (h4 : senv.validateRegisterForm sbody = .error e4) :
    getPhoneCode penv pq = .err .invalidParam ∧
    register renv rbody = (.err .invalidParam, ⟨false, false, none⟩) ∧
    login lenv lbody = (.err .invalidParam, ⟨false, false, none⟩) ∧
    resetPassword senv sbody = (.err .invalidParam, none) := by
  refine ⟨?_, ?_, ?_, ?_⟩
  · simp [getPhoneCode, h1]
  · simp [register, h2]
  · simp [login, h3]
  · simp [resetPassword, h4]

theorem validator_error_yields_invalidParam_witness :
    getPhoneCode cFailPhoneCodeEnv { phone := some "13800000000" } =
      .err .invalidParam ∧
    register cFailRegisterEnv
        { phone := some "13800000000", code := some "123456",
          password := some "p1", rePassword := some "p1" } =
      (.err .invalidParam, ⟨false, false, none⟩) ∧
    login cFailLoginEnv
        { phone := some "13800000000", code := none, password := some "p1" } =
      (.err .invalidParam, ⟨false, false, none⟩) ∧
    resetPassword cFailResetEnv
        { phone := some "13800000000", code := some "123456",
          password := some "p1", rePassword := some "p1" } =
      (.err .invalidParam, none) :=
  validator_error_yields_invalidParam
    cFailPhoneCodeEnv { phone := some "13800000000" } "bad form"
    cFailRegisterEnv
    { phone := some "13800000000", code := some "123456",
      password := some "p1", rePassword := some "p1" } "bad form"
    cFailLoginEnv
    { phone := some "13800000000", code := none, password := some "p1" } "bad form"
    cFailResetEnv
    { phone := some "13800000000", code := some "123456",
      password := some "p1", rePassword := some "p1" } "bad form"
    rfl rfl rfl rfl

/-- Claim C8: for a send-phone-code request that passes validation,
an error thrown by the SMS service is caught and answered as a failure
response of the generic kind; the raw service error is not propagated
(the operation is a total function into the response type). -/
theorem sendPhoneCode_error_surfaced (env : PhoneCodeEnv) (q : PhoneQuery)
    (e : String)
    (hv : env.validatePhone q = .ok ())
    (hs : env.sendPhoneCode q.phone = .error e) :
    getPhoneCode env q = .err .genericFailure := by
  simp [getPhoneCode, failFromRaw, hv, hs]

theorem sendPhoneCode_error_surfaced_witness :
    getPhoneCode cPhoneCodeEnv { phone := some "13800000000" } =
      .err .genericFailure :=
  sendPhoneCode_error_surfaced cPhoneCodeEnv { phone := some "13800000000" }
    "SMS service down" rfl rfl

/-- Claim C3 (code bug, at a concrete failing input): when the avatar
store rejects the save, `uploadAvatar` does drain the stream and does
report the upload error, but — contrary to the claim and to the
stated intent of the spec — it then updates the avatar field of the
user record to `/public/uploads/avatar/undefined` and also emits a
success response. -/
theorem uploadAvatar_store_failure_updates_avatar :
    uploadAvatar cFailAvatarEnv 1 =
      { responses := [.err .uploadError, .ok "/public/uploads/avatar/undefined"],
        streamDrained := true,
        avatarUpdatedTo := some "/public/uploads/avatar/undefined" } ∧
    (uploadAvatar cFailAvatarEnv 1).avatarUpdatedTo ≠ none := by
  constructor
  · rfl
  · decide
